import Mathlib

/-!
# Verification of the india-timeuse-survey harmonization pipeline

Shallow embedding of the two parallel pipelines of the repository:
`src/parse.py` (the pandas pipeline over the 1998/2019 CSV extracts) and
`src/2019/parse.py` (the polars pipeline over the 2019 parquet extracts).

Cell values are modelled by `Val`; tables are modelled as a column-name list
together with rows that are association lists from column name to value.
Code maps are association lists from code string to description, with an
optional entry for the Python `None` key (as in the literal maps
`{"1": "yes", "2": "no", None: "yes"}` of `src/2019/parse.py`).
-/

set_option autoImplicit false

namespace TUS

/-- A Python cell value as the pipelines see it: `None`/missing, an integer,
a float (modelled as sign, integral part and the fractional digit string of
its decimal rendering), or a string. -/
inductive Val where
  | vnull : Val
  | vint : Int → Val
  | vfloat : Bool → Nat → String → Val
  | vstr : String → Val
deriving DecidableEq, Repr

/-- Python `str(...)` on a cell value. `str(None) = "None"`; a float renders
as its decimal form (for example `1.0` renders as `"1.0"`). -/
def pyStr : Val → String
  | .vnull => "None"
  | .vint n => toString n
  | .vfloat neg w frac => (if neg then "-" else "") ++ toString w ++ "." ++ frac
  | .vstr s => s

/-- Digit-string check used to model `float.is_integer`: the fractional part
consists of `0` digits only. -/
def digitsAllZero (s : String) : Bool := s.data.all (fun c => c = '0')

/-- Numeric value of a list of decimal digit characters. -/
def natOfDigits (cs : List Char) : Nat :=
  cs.foldl (fun acc c => acc * 10 + (c.toNat - '0'.toNat)) 0

/-- Parse the unsigned part of a decimal literal `digits '.' digits`.
Models the successful case of Python `float(str_val)` as invoked by
`clean_and_map` in src/parse.py (which only tries the conversion when the
string contains a `'.'`); exotic float syntax (exponents, `inf`, `nan`,
whitespace) is modelled as a parse failure, which the source treats
identically (the bare `except: pass` leaves the string unchanged). -/
def parseDecimalCore (cs : List Char) : Option (Nat × String) :=
  let w := cs.takeWhile Char.isDigit
  match cs.dropWhile Char.isDigit with
  | '.' :: frac =>
    if frac.all Char.isDigit ∧ (w ≠ [] ∨ frac ≠ []) then
      some (natOfDigits w, String.mk frac)
    else none
  | _ => none

/-- Parse a signed decimal literal, returning (sign, integral part,
fractional digit string). -/
def pyFloatOfString (s : String) : Option (Bool × Nat × String) :=
  match s.data with
  | '-' :: rest => (parseDecimalCore rest).map (fun p => (true, p.1, p.2))
  | cs => (parseDecimalCore cs).map (fun p => (false, p.1, p.2))

/-- Python `int(float_val)` for a float given as sign/whole/fraction whose
fractional part is zero: truncation is just the (signed) integral part.
`int(-0.0) = 0` holds because `-(0 : Int) = 0`. -/
def pyIntTrunc (neg : Bool) (w : Nat) : Int := if neg then -(w : Int) else (w : Int)

/-- The decimal-point normalization of `clean_and_map` (src/parse.py lines
33-41): if the rendered string contains `'.'` and parses as a float with
zero fractional part, replace it by the canonical integer string; otherwise
leave it unchanged.  Python `'.' in str_val` is modelled as membership of
the character in the string's character list. -/
def strip_decimal (s : String) : String :=
  if '.' ∈ s.data then
    match pyFloatOfString s with
    | some (neg, w, frac) =>
        if digitsAllZero frac then toString (pyIntTrunc neg w) else s
    | none => s
  else s

/-- A code map: ordered entries from code string to description, plus the
optional value stored under the Python `None` key (present in the literal
maps `{"1": "yes", "2": "no", None: "yes"}` of src/2019/parse.py). -/
structure CodeMap where
  entries : List (String × String)
  nullKey : Option String := none
deriving DecidableEq, Repr

/-- Association-list lookup by string key (first match wins), modelling
Python `dict` lookup for dictionaries with distinct keys. -/
def alookup {β : Type} (n : String) : List (String × β) → Option β
  | [] => none
  | p :: r => if p.1 = n then some p.2 else alookup n r

/-- `mapping_dict.get(str_val, default)` / `str_value in mapping_dict`
restricted to the string keys: the `None` key of a Python dict can never
equal a string, so it never participates in these lookups. -/
def lookupCode (m : CodeMap) (k : String) : Option String := alookup k m.entries

/-- `clean_and_map` from src/parse.py (lines 26-44), the per-value mapper of
the pandas pipeline: null goes to the literal `"Unknown"`; a non-null value
is rendered with `str`, decimal-normalized, and looked up; on a miss the
fallback embeds the raw (un-normalized) rendering. -/
def clean_and_map (m : CodeMap) (v : Val) : String :=
  if v = .vnull then "Unknown"
  else
    match lookupCode m (strip_decimal (pyStr v)) with
    | some d => d
    | none => "Unknown (" ++ pyStr v ++ ")"

/-- `map_value` from src/2019/parse.py (lines 493-499), the per-value mapper
of the polars pipeline: `None` stays `None`; otherwise `str(value)` is looked
up with no decimal normalization, and a miss falls back to
`"Unknown (<raw>)"` (here `f"Unknown ({value})"` interpolates `str(value)`,
which is exactly the lookup key). -/
def map_value (m : CodeMap) (v : Val) : Option String :=
  match v with
  | .vnull => none
  | _ =>
    let str_value := pyStr v
    match lookupCode m str_value with
    | some d => some d
    | none => some ("Unknown (" ++ str_value ++ ")")

/-- The cell written back by the polars `map_elements` call: `None` is kept
as a null cell, a produced string is a string cell (dtype fixed to Utf8 by
`return_dtype=pl.Utf8`). -/
def map_value_elem (m : CodeMap) (v : Val) : Val :=
  match map_value m v with
  | none => .vnull
  | some s => .vstr s

/-- Modelled from the spec: the gender code map of the missing `mappings.py`
module (`GENDER_MAPPING`), given in §8 of the spec as
`{"1": "male", "2": "female"}`. -/
def GENDER_MAPPING : CodeMap := ⟨[("1", "male"), ("2", "female")], none⟩

example : clean_and_map GENDER_MAPPING (.vint 1) = "male" := by decide
example : clean_and_map GENDER_MAPPING (.vfloat false 1 "0") = "male" := by decide
example : clean_and_map GENDER_MAPPING (.vint 3) = "Unknown (3)" := by decide
example : clean_and_map GENDER_MAPPING .vnull = "Unknown" := by decide
example : map_value GENDER_MAPPING (.vint 1) = some "male" := by decide
example : map_value GENDER_MAPPING (.vfloat false 1 "0") = some "Unknown (1.0)" := by decide
example : map_value GENDER_MAPPING .vnull = none := by decide
example : clean_and_map GENDER_MAPPING (.vstr "2.00") = "female" := by decide

/-! ## Tables

A table is a list of column names plus rows given as association lists from
column name to value.  Well-formed tables have each row's key list equal to
the column list; the theorems carry the fragments of this invariant they
need as hypotheses. -/

/-- A row: association list from column name to cell value. -/
abbrev Row : Type := List (String × Val)

/-- A data frame of either pipeline. -/
structure Table where
  cols : List String
  rows : List Row
deriving DecidableEq

/-- Pointwise transformation of an association list's values, keyed by name:
each entry `(n, v)` becomes `(n, h n v)`. -/
def applyVals {β : Type} (h : String → β → β) (l : List (String × β)) :
    List (String × β) :=
  l.map (fun p => (p.1, h p.1 p.2))

@[simp]
theorem alookup_applyVals {β : Type} (h : String → β → β) (l : List (String × β))
    (c : String) : alookup c (applyVals h l) = (alookup c l).map (h c) := by
  induction l with
  | nil => rfl
  | cons p l ih =>
    by_cases hc : p.1 = c
    · subst hc; simp [applyVals, alookup]
    · simp [applyVals, alookup, hc] at ih ⊢; exact ih

@[simp]
theorem map_fst_applyVals {β : Type} (h : String → β → β) (l : List (String × β)) :
    (applyVals h l).map Prod.fst = l.map Prod.fst := by
  simp [applyVals]

/-- Pointwise transformation of a row's values, keyed by column name. -/
def rowApply (h : String → Val → Val) (r : Row) : Row := applyVals h r

@[simp]
theorem alookup_rowApply (h : String → Val → Val) (r : Row) (c : String) :
    alookup c (rowApply h r) = (alookup c r).map (h c) :=
  alookup_applyVals h r c

@[simp]
theorem alookup_append {β : Type} (l₁ l₂ : List (String × β)) (c : String) :
    alookup c (l₁ ++ l₂) =
      match alookup c l₁ with
      | some v => some v
      | none => alookup c l₂ := by
  induction l₁ with
  | nil => simp [alookup]
  | cons p l ih =>
    by_cases hc : p.1 = c
    · simp [alookup, hc]
    · simp [alookup, hc, ih]

theorem alookup_eq_none_of_not_mem {β : Type} (l : List (String × β)) (c : String)
    (h : c ∉ l.map Prod.fst) : alookup c l = none := by
  induction l with
  | nil => rfl
  | cons p l ih =>
    rw [List.map_cons, List.mem_cons] at h
    push_neg at h
    rw [alookup, if_neg (fun hc : p.1 = c => h.1 hc.symm), ih h.2]

theorem alookup_append_none {β : Type} (l₁ l₂ : List (String × β)) (c : String)
    (h : alookup c l₁ = none) : alookup c (l₁ ++ l₂) = alookup c l₂ := by
  rw [alookup_append, h]

theorem alookup_append_some {β : Type} (l₁ l₂ : List (String × β)) (c : String)
    (v : β) (h : alookup c l₁ = some v) : alookup c (l₁ ++ l₂) = some v := by
  rw [alookup_append, h]

@[simp]
theorem alookup_cons_self {β : Type} (c : String) (v : β) (l : List (String × β)) :
    alookup c ((c, v) :: l) = some v := by
  rw [alookup, if_pos rfl]

/-- The column-update of `map_codes_to_descriptions` in src/parse.py
(line 47, `df[column_name] = df[column_name].apply(clean_and_map)`): every
cell of the named column is replaced by the string `clean_and_map` produces;
all other columns are untouched.  If the column is absent the function
reports and returns the table unchanged (lines 18-20). -/
def map_codes_pandas (m : CodeMap) (name : String) (t : Table) : Table :=
  if name ∈ t.cols then
    ⟨t.cols, t.rows.map (rowApply (fun n v => if n = name then .vstr (clean_and_map m v) else v))⟩
  else t

/-- The try/except wrapper of src/parse.py lines 24-54: the `apply` step may
raise before the column assignment (modelled by `fail = true`), in which case
the except branch returns the data frame, which at that point is still the
input, unchanged. -/
def map_codes_pandas_try (m : CodeMap) (name : String) (fail : Bool) (t : Table) : Table :=
  if fail then t else map_codes_pandas m name t

/-- The column-update of `map_codes_to_descriptions` in src/2019/parse.py
(lines 501-504): `with_columns(pl.col(name).map_elements(map_value,
return_dtype=pl.Utf8).alias(name))` overwrites the named column in place
and leaves all other columns untouched; nulls stay null, produced values are
Utf8 strings. The struct-extraction branch of lines 481-486 is not modelled
(`Val` has no struct values). Absent column: report and return unchanged
(lines 473-475). -/
def map_codes_polars (m : CodeMap) (name : String) (t : Table) : Table :=
  if name ∈ t.cols then
    ⟨t.cols, t.rows.map (rowApply (fun n v => if n = name then map_value_elem m v else v))⟩
  else t

/-- The try/except wrapper of src/2019/parse.py lines 479-512: on an
internal failure (`fail = true`) the except branch returns the input frame;
polars frames are immutable, so it really is unchanged. -/
def map_codes_polars_try (m : CodeMap) (name : String) (fail : Bool) (t : Table) : Table :=
  if fail then t else map_codes_polars m name t

/-! ## Identifier synthesis (src/2019/parse.py, `process_parquet_file`) -/

/-- Polars `cast(pl.Utf8)` on a cell: nulls remain null, other values render
to their string form (an integer as `"2"`, a float as `"2.0"`). -/
def castValUtf8 (v : Val) : Val :=
  match v with
  | .vnull => .vnull
  | w => .vstr (pyStr w)

/-- Polars `pl.concat_str` over a list of cell values: casts each operand to
Utf8 and joins with no separator; any null operand makes the result null. -/
def concatStrVals (vs : List Val) : Val :=
  if vs.all (fun v => v ≠ .vnull) then
    .vstr (String.join (vs.map (fun v => pyStr (castValUtf8 v))))
  else .vnull

/-- The grouping columns of src/2019/parse.py lines 7-12. -/
def GROUP_BY_COLUMNS : List String :=
  ["FSU Serial No.", "Sector", "State", "District",
   "Stratum", "Sub-Stratum", "Sub-Round",
   "FOD Sub-Region", "Sample hhld. No."]

/-- The household-id step of `process_parquet_file` (src/2019/parse.py lines
50-62): restrict to the grouping columns actually present, cast each of them
to Utf8 in place, then append a `household_id` column holding the
concatenation of their string values in the given column order.  The
per-column `with_columns` casts of lines 53-54 are folded into one pointwise
pass (they touch disjoint columns). -/
def create_household_id (gcols : List String) (t : Table) : Table :=
  let available := gcols.filter (fun c => c ∈ t.cols)
  ⟨t.cols ++ ["household_id"],
   t.rows.map (fun r =>
     let rc := rowApply (fun n v => if n ∈ available then castValUtf8 v else v) r
     rc ++ [("household_id",
             concatStrVals (available.map (fun c => (alookup c rc).getD .vnull)))])⟩

/-- `process_parquet_file`'s guard (src/2019/parse.py lines 39-43): with no
grouping column available the file is rejected (`return None`); otherwise
the household id is created from the available grouping columns. -/
def process_parquet_keys (gcols : List String) (t : Table) : Option Table :=
  if gcols.filter (fun c => c ∈ t.cols) = [] then none
  else some (create_household_id gcols t)

/-- The person-id step of `create_individual_profiles` (src/2019/parse.py
lines 174-186): append `person_id = concat_str(household_id, Sl.No.)`, drop
the `Sl.No.` column, and move `person_id` to the front.  When `Sl.No.` is
absent the frame is returned unchanged with only a warning (line 188). -/
def add_person_id (t : Table) : Table :=
  if "Sl.No." ∈ t.cols then
    ⟨"person_id" :: t.cols.filter (fun c => c ≠ "Sl.No."),
     t.rows.map (fun r =>
       ("person_id",
        concatStrVals [(alookup "household_id" r).getD .vnull,
                       (alookup "Sl.No." r).getD .vnull]) ::
       r.filter (fun p => p.1 ≠ "Sl.No."))⟩
  else t

example :
    (create_household_id ["Sector", "State", "District", "fsu"]
      ⟨["Sector", "State", "District", "fsu"],
       [[("Sector", .vstr "10"), ("State", .vstr "2"),
         ("District", .vstr "07"), ("fsu", .vstr "003")]]⟩).rows.map
      (fun r => alookup "household_id" r) = [some (.vstr "10207003")] := by decide

/-! ## District mapping, polars pipeline (src/2019/parse.py lines 514-564) -/

/-- The shape of `DISTRICT_MAPPING` from the missing `mappings.py` module:
a two-level map, state code string to (district code string to district
name). Modelled from the spec: "a two-level geographic table
(state → district)" resolved by the composite lookup of
`map_district_codes`. -/
abbrev DistrictMap2 : Type := List (String × List (String × String))

/-- `map_district` from src/2019/parse.py lines 532-546: null state or
district stays null; otherwise both codes are rendered with `str` and the
pair is looked up in the two-level map; any miss (state absent, or district
absent under the state) falls back to `"Unknown District (<raw district>)"`
with the raw district rendering embedded. -/
def map_district_fn (dm : DistrictMap2) (stateVal districtVal : Val) : Val :=
  if stateVal = .vnull ∨ districtVal = .vnull then .vnull
  else
    match alookup (pyStr stateVal) dm with
    | some districtMap =>
      match alookup (pyStr districtVal) districtMap with
      | some name => .vstr name
      | none => .vstr ("Unknown District (" ++ pyStr districtVal ++ ")")
    | none => .vstr ("Unknown District (" ++ pyStr districtVal ++ ")")

/-- `map_district_codes` from src/2019/parse.py lines 514-564: guard on the
presence of `State` and `District` (lines 524-526); compute a
`district_name` column by applying `map_district_fn` to the per-row
(State, District) struct, drop `District` and rename `district_name` to
`District` (lines 549-557), so the mapped column ends up last.  The
`with_columns` + `drop` + `rename` steps are fused into one row pass.  A
failure inside the try block (`fail = true`) returns the (immutable) input
frame unchanged (lines 561-564). -/
def map_district_codes_polars (dm : DistrictMap2) (fail : Bool) (t : Table) : Table :=
  if "State" ∈ t.cols ∧ "District" ∈ t.cols then
    if fail then t
    else
      ⟨t.cols.filter (fun c => c ≠ "District") ++ ["District"],
       t.rows.map (fun r =>
         r.filter (fun p => p.1 ≠ "District") ++
         [("District",
           map_district_fn dm ((alookup "State" r).getD .vnull)
             ((alookup "District" r).getD .vnull))])⟩
  else t

/-! ## District mapping, pandas pipeline (src/parse.py lines 56-180) -/

/-- One row of `raw/districts.csv` after the `astype(int)` normalization of
src/parse.py lines 84-86 (the reference table is assumed to be clean
integer-coded, as the pipeline requires: a non-integral code there raises
and aborts the whole mapping). -/
structure DistrictRow where
  subRegion : Int
  districtCode : Int
  stateCode : Int
  stateName : String
  districtName : String
deriving DecidableEq, Repr

/-- The composite key of src/parse.py line 111 / line 128:
`f"{sub}_{district}_{state}"` over the integer-normalized codes. -/
def districtKey (sub dist st : Int) : String :=
  toString sub ++ "_" ++ toString dist ++ "_" ++ toString st

/-- Insert with overwrite, modelling `mapping_dict[key] = value` on a Python
dict (src/parse.py lines 110-114): a duplicate composite key keeps its
original position but takes the last-seen value. -/
def insertOverwrite {β : Type} (l : List (String × β)) (k : String) (v : β) :
    List (String × β) :=
  if k ∈ l.map Prod.fst then
    l.map (fun p => if p.1 = k then (k, v) else p)
  else l ++ [(k, v)]

/-- The lookup dictionary built from the reference rows (src/parse.py lines
106-114): iterate the reference table, overwriting duplicates so the
last-seen mapping wins. -/
def buildMappingDict (rows : List DistrictRow) : List (String × (String × String)) :=
  rows.foldl (fun acc r =>
    insertOverwrite acc (districtKey r.subRegion r.districtCode r.stateCode)
      (r.stateName, r.districtName)) []

/-- Pandas `astype(int)` on a cell: an integer stays itself, a float is
truncated toward zero, a decimal-digit string (optionally signed) is parsed,
and anything else — including null and strings such as `"2.0"` — raises,
which aborts the surrounding conversion (modelled as `none`). -/
def pandasToInt (v : Val) : Option Int :=
  match v with
  | .vint n => some n
  | .vfloat neg w _ => some (pyIntTrunc neg w)
  | .vstr s =>
    match s.data with
    | '-' :: cs => if cs ≠ [] ∧ cs.all Char.isDigit then some (-(natOfDigits cs : Int)) else none
    | cs => if cs ≠ [] ∧ cs.all Char.isDigit then some ((natOfDigits cs : Int)) else none
  | .vnull => none

/-- `extract_state_code` from src/parse.py lines 94-101: render the
NSS-Region value with `str` and keep the left 2 characters of a 3-character
string, the left 1 character of a 2-character string, and the whole string
otherwise. -/
def extract_state_code (v : Val) : String :=
  let nss_str := pyStr v
  if nss_str.length = 3 then String.mk (nss_str.data.take 2)
  else if nss_str.length = 2 then String.mk (nss_str.data.take 1)
  else nss_str

/-- The per-row composite keys of src/parse.py lines 88-128: convert
`FOD Sub-Region` and `District` with `astype(int)`, derive the state code
from `NSS-Region` via `extract_state_code` followed by `astype(int)`, and
build `"sub_district_state"` keys.  Any failed conversion (or an absent
`NSS-Region` column, a `KeyError` at line 103) raises inside the try block
before the data frame is touched, so the caller returns the input
unchanged. -/
def rowKeysPandas (t : Table) : Option (List String) :=
  if "NSS-Region" ∈ t.cols then
    match
      t.rows.mapM (fun r => (alookup "FOD Sub-Region" r).bind pandasToInt),
      t.rows.mapM (fun r => (alookup "District" r).bind pandasToInt),
      t.rows.mapM (fun r =>
        (alookup "NSS-Region" r).bind (fun v => pandasToInt (.vstr (extract_state_code v))))
    with
    | some subs, some dists, some states =>
      some (List.zipWith (fun sd st => districtKey sd.1 sd.2 st) (subs.zip dists) states)
    | _, _, _ => none
  else none

/-- Set the value of one row entry: overwrite every entry with the given
key if present, otherwise append the entry. -/
def setEntry (r : Row) (n : String) (v : Val) : Row :=
  if n ∈ r.map Prod.fst then
    r.map (fun p => if p.1 = n then (n, v) else p)
  else r ++ [(n, v)]

/-- `df[name] = vals` on a pandas frame: overwrite the column if present,
otherwise append it; values are assigned positionally. -/
def setColumn (t : Table) (name : String) (vals : List Val) : Table :=
  ⟨if name ∈ t.cols then t.cols else t.cols ++ [name],
   List.zipWith (fun (r : Row) v => setEntry r name v) t.rows vals⟩

/-- `map_district_codes` from src/parse.py lines 56-180: guard on
`FOD Sub-Region` and `District` (lines 67-69); compute the per-row composite
keys (a failure there happens before the frame is mutated, so the except
branch returns it unchanged); then write a `state` and a `district` column
initialized to the literals `"Unknown State"` / `"Unknown District"` (lines
135-136) and overwritten with the reference names for every key found in the
dictionary (lines 142-146) — equivalently, a per-row dictionary lookup with
those literals as defaults, since `buildMappingDict` produces distinct keys.
The failure log of lines 163-167 is written only after the frame has been
mutated in place; an exception there (`logFail = true`) is caught at line
176 and the except branch returns the same, already mutated, frame — which
is why `logFail` does not change the result. -/
def map_district_codes_pandas (D : List DistrictRow) (logFail : Bool) (t : Table) : Table :=
  if "FOD Sub-Region" ∈ t.cols ∧ "District" ∈ t.cols then
    match rowKeysPandas t with
    | none => t
    | some keys =>
      let dict := buildMappingDict D
      let stateVals := keys.map (fun k =>
        match alookup k dict with
        | some p => Val.vstr p.1
        | none => Val.vstr "Unknown State")
      let distVals := keys.map (fun k =>
        match alookup k dict with
        | some p => Val.vstr p.2
        | none => Val.vstr "Unknown District")
      setColumn (setColumn t "state" stateVals) "district" distVals
  else t

example :
    (map_district_codes_pandas
      [⟨10, 5, 2, "StateA", "DistA"⟩] false
      ⟨["FOD Sub-Region", "District", "NSS-Region"],
       [[("FOD Sub-Region", .vint 10), ("District", .vint 5), ("NSS-Region", .vint 21)]]⟩).rows.map
      (fun r => alookup "district" r) = [some (.vstr "DistA")] := by decide

example :
    (map_district_codes_pandas
      [⟨10, 5, 2, "StateA", "DistA"⟩] false
      ⟨["FOD Sub-Region", "District", "NSS-Region"],
       [[("FOD Sub-Region", .vint 10), ("District", .vint 7), ("NSS-Region", .vint 21)]]⟩).rows.map
      (fun r => alookup "district" r) = [some (.vstr "Unknown District")] := by decide

/-! ## Column projector (src/parse.py lines 293-307, src/2019/parse.py lines
436-446): both pipelines compute the desired columns that exist, in desired
order, followed by the actual columns not named in the desired list, in
their original order. -/

/-- The final column order of both pipelines:
`[c for c in desired if c in actual] + [c for c in actual if c not in desired]`. -/
def final_column_order (desired actual : List String) : List String :=
  desired.filter (fun c => c ∈ actual) ++ actual.filter (fun c => c ∉ desired)

/-! ## Schema harmonizer (src/2019/parse.py lines 104-151)

Polars column dtypes are modelled by `Dtype`; a part of a module is a
`PTable` = schema (column name, dtype) plus rows.  `pl.concat(...,
how="vertical")` is a sequence of positional vstacks: it raises
`ShapeError` when the widths differ or when the column names at some
position differ, it raises `SchemaError` when a name-aligned pair of
columns has incompatible dtypes (only an appended — right-side — Null
series is upcast to the left dtype; a Null left column against a typed
right column is a dtype mismatch), and it never realigns rows by name
(that is `how="diagonal"`). -/

/-- A polars column dtype: strings, 64-bit integers, floats, or the dtype of
an all-null `pl.lit(None)` column. -/
inductive Dtype where
  | utf8 : Dtype
  | int64 : Dtype
  | float64 : Dtype
  | nullt : Dtype
deriving DecidableEq, Repr

/-- The polars exception raised by a failed vertical concatenation:
`pl.exceptions.SchemaError` for a dtype mismatch of name-aligned columns,
`ShapeError` for a width or positional-name mismatch. -/
inductive PlError where
  | schemaError : PlError
  | shapeError : PlError
deriving DecidableEq, Repr

/-- A typed polars frame: schema plus rows. -/
structure PTable where
  schema : List (String × Dtype)
  rows : List Row
deriving DecidableEq

/-- Column names of a schema. -/
def schemaNames (s : List (String × Dtype)) : List String := s.map Prod.fst

instance : DecidableEq (Except PlError PTable) := fun a b =>
  match a, b with
  | .ok x, .ok y =>
    if h : x = y then .isTrue (by rw [h])
    else .isFalse (fun hc => h (Except.ok.inj hc))
  | .error x, .error y =>
    if h : x = y then .isTrue (by rw [h])
    else .isFalse (fun hc => h (Except.error.inj hc))
  | .ok _, .error _ => .isFalse (fun hc => Except.noConfusion hc)
  | .error _, .ok _ => .isFalse (fun hc => Except.noConfusion hc)

/-- Dtype check of one positionally-paired column during a vertical append:
equal dtypes succeed, and an all-null appended (right) series is upcast to
the left dtype; anything else — including a Null left column against a
typed right column — is a dtype mismatch (`SchemaError`). -/
def vstackDtypeOk (left right : Dtype) : Bool :=
  left = right || right = .nullt

/-- `pl.concat([a, b], how="vertical")`: positional vstack.  Differing
widths or differing column names at some position raise `ShapeError`; a
positional name match with a dtype mismatch raises `SchemaError`;
otherwise the rows of `b` are stacked under `a`'s schema as they are,
with no realignment. -/
def concat_vertical (a b : PTable) : Except PlError PTable :=
  if a.schema.length = b.schema.length then
    if (a.schema.zip b.schema).all (fun q => q.1.1 = q.2.1) then
      if (a.schema.zip b.schema).all (fun q => vstackDtypeOk q.1.2 q.2.2) then
        .ok ⟨a.schema, a.rows ++ b.rows⟩
      else .error .schemaError
    else .error .shapeError
  else .error .shapeError

/-- `df.with_columns(pl.lit(None).alias(c))` (src/2019/parse.py lines
140-143): append a column of dtype Null whose every cell is null. -/
def addNullCol (t : PTable) (c : String) : PTable :=
  ⟨t.schema ++ [(c, .nullt)], t.rows.map (fun r => r ++ [(c, .vnull)])⟩

/-- `df.with_columns(pl.col(c).cast(pl.Utf8).alias(c))` (src/2019/parse.py
lines 133-137): retype the column to Utf8 and cast its cells in place. -/
def castColUtf8P (t : PTable) (c : String) : PTable :=
  ⟨applyVals (fun n d => if n = c then .utf8 else d) t.schema,
   t.rows.map (rowApply (fun n v => if n = c then castValUtf8 v else v))⟩

/-- One iteration of the harmonization loop (src/2019/parse.py lines
124-143) for column `col` over the state (combined_df, df): a column present
on both sides with differing dtypes is cast to Utf8 on both sides; a column
present on one side only is added to the other side filled with nulls. -/
def harmonizeStep (st : PTable × PTable) (col : String) : PTable × PTable :=
  match alookup col st.1.schema, alookup col st.2.schema with
  | some ta, some tb =>
    if ta ≠ tb then (castColUtf8P st.1 col, castColUtf8P st.2 col) else st
  | some _, none => (st.1, addNullCol st.2 col)
  | none, some _ => (addNullCol st.1 col, st.2)
  | none, none => st

/-- The harmonization loop: iterate over the union of the two column sets
(`set(combined).union(set(df))` at line 121; the Python set's iteration
order is modelled as left columns first, then the new right columns). -/
def harmonizePair (a b : PTable) : PTable × PTable :=
  (schemaNames a.schema ++
    (schemaNames b.schema).filter (fun c => c ∉ schemaNames a.schema)).foldl
    harmonizeStep (a, b)

/-- The intra-module combination step of `create_individual_profiles`
(src/2019/parse.py lines 112-151): try a direct vertical concatenation; the
surrounding `except` at line 116 catches only `pl.exceptions.SchemaError`,
so a `ShapeError` (the error a differing column set actually raises)
propagates out of `create_individual_profiles` and aborts the run
(modelled as `.error`).  On a caught `SchemaError` both sides are
harmonized and the concatenation retried once; the retry's own `except
Exception` at lines 149-151 catches anything and keeps the
already-accumulated rows ("Continuing with partial data"). -/
def combine_parts (a b : PTable) : Except PlError PTable :=
  match concat_vertical a b with
  | .ok t => .ok t
  | .error .shapeError => .error .shapeError
  | .error .schemaError =>
    let p := harmonizePair a b
    match concat_vertical p.1 p.2 with
    | .ok t => .ok t
    | .error _ => .ok a

/-! ## Claim theorems -/

/-- C1 (counterexample): the polars pipeline's `map_value` applies no
decimal normalization: the float `1.0` (rendering `"1.0"`) misses the
gender map entry `"1"` and falls to `"Unknown (1.0)"`, while the integer
`1` resolves to `"male"` — the two renderings do not resolve to the same
CodeMap entry, so the normalization is not applied uniformly in both
pipelines. -/
theorem polars_map_value_no_decimal_normalization :
    map_value GENDER_MAPPING (.vfloat false 1 "0") = some "Unknown (1.0)" ∧
    map_value GENDER_MAPPING (.vint 1) = some "male" ∧
    map_value GENDER_MAPPING (.vfloat false 1 "0") ≠ map_value GENDER_MAPPING (.vint 1) := by
  decide

/-- C1 (amended): in the pandas pipeline (`clean_and_map`, applied uniformly
to every code map and every column), a non-null value whose string rendering
is a decimal with zero fractional part is normalized to the canonical
integer string before lookup, so it and the plain integer resolve to the
same CodeMap entry; the 2019 polars pipeline performs no such
normalization. -/
theorem pandas_decimal_normalization_uniform (m : CodeMap) (v : Val) (neg : Bool)
    (w : Nat) (fr d : String)
    (hnn : v ≠ .vnull)
    (hdot : '.' ∈ (pyStr v).data)
    (hp : pyFloatOfString (pyStr v) = some (neg, w, fr))
    (hz : digitsAllZero fr = true)
    (hint : '.' ∉ (toString (pyIntTrunc neg w)).data)
    (hd : lookupCode m (toString (pyIntTrunc neg w)) = some d) :
    clean_and_map m v = d ∧ clean_and_map m (.vint (pyIntTrunc neg w)) = d := by
  constructor
  · rw [clean_and_map, if_neg hnn, strip_decimal, if_pos hdot, hp]
    simp only [hz, if_pos]
    rw [hd]
  · rw [clean_and_map, if_neg (by simp [Val.vint.injEq])]
    have hs : pyStr (Val.vint (pyIntTrunc neg w)) = toString (pyIntTrunc neg w) := rfl
    rw [hs, strip_decimal, if_neg hint, hd]

/-- C1 (witness): the gender map, the float `1.0` and the integer `1`. -/
theorem pandas_decimal_normalization_uniform_witness :
    clean_and_map GENDER_MAPPING (.vfloat false 1 "0") = "male" ∧
    clean_and_map GENDER_MAPPING (.vint (pyIntTrunc false 1)) = "male" :=
  pandas_decimal_normalization_uniform GENDER_MAPPING (.vfloat false 1 "0") false 1 "0"
    "male" (by decide) (by decide) (by decide) (by decide) (by decide) (by decide)

/-- C2 (counterexample): with the code map `{"1": "yes", "2": "no",
None: "yes"}` of src/2019/parse.py (which configures `"yes"` for the null
key), a null cell is not mapped to the configured fallback `"yes"`: the
polars mapper leaves it as null, and the pandas mapper produces the literal
`"Unknown"` even though the map defines a null-key fallback. -/
theorem null_fallback_never_consulted :
    map_value ⟨[("1", "yes"), ("2", "no")], some "yes"⟩ .vnull = none ∧
    map_value ⟨[("1", "yes"), ("2", "no")], some "yes"⟩ .vnull ≠ some "yes" ∧
    clean_and_map ⟨[("1", "yes"), ("2", "no")], some "yes"⟩ .vnull = "Unknown" ∧
    clean_and_map ⟨[("1", "yes"), ("2", "no")], some "yes"⟩ .vnull ≠ "yes" := by
  decide

/-- C2 (amended): a null/missing cell is never resolved through the code
map: the pandas pipeline always returns the literal `"Unknown"`, and the
polars pipeline leaves the cell null; a fallback configured for the null
key of a map is never consulted by either pipeline. -/
theorem null_cells_fixed_fallback (m : CodeMap) :
    clean_and_map m .vnull = "Unknown" ∧
    map_value m .vnull = none ∧
    map_value_elem m .vnull = .vnull := by
  refine ⟨?_, rfl, rfl⟩
  rw [clean_and_map, if_pos rfl]

/-- `map_value` on a non-null value: look up `str(value)` and fall back to
`"Unknown (<raw>)"`. -/
theorem map_value_ne_null (m : CodeMap) (v : Val) (hnn : v ≠ .vnull) :
    map_value m v =
      match lookupCode m (pyStr v) with
      | some d => some d
      | none => some ("Unknown (" ++ pyStr v ++ ")") := by
  cases v with
  | vnull => exact absurd rfl hnn
  | vint n => rfl
  | vfloat neg w fr => rfl
  | vstr s => rfl

/-- C9: a non-null cell whose pipeline-normalized string form is a key of
the code map resolves to exactly the map's description for that key, in
both pipelines (the pandas pipeline normalizes with `strip_decimal`, the
polars pipeline uses the plain `str` rendering). -/
theorem defined_codes_resolve_exactly (m : CodeMap) (v : Val) (c d : String)
    (hnn : v ≠ .vnull) (hd : lookupCode m c = some d) :
    (strip_decimal (pyStr v) = c → clean_and_map m v = d) ∧
    (pyStr v = c → map_value m v = some d) := by
  constructor
  · intro hc
    rw [clean_and_map, if_neg hnn, hc, hd]
  · intro hc
    rw [map_value_ne_null m v hnn, hc, hd]

/-- C9 (witness): gender code 2 resolves to "female" in both pipelines. -/
theorem defined_codes_resolve_exactly_witness :
    clean_and_map GENDER_MAPPING (.vint 2) = "female" ∧
    map_value GENDER_MAPPING (.vint 2) = some "female" := by
  have h := defined_codes_resolve_exactly GENDER_MAPPING (.vint 2) "2" "female"
    (by decide) (by decide)
  exact ⟨h.1 (by decide), h.2 (by decide)⟩

/-- C4: a non-null cell missing from the code map (under either pipeline's
lookup key) falls back to `"Unknown (<raw>)"`, which contains the raw
rendering of the cell verbatim; and for the gender map (modelled from the
spec, the concrete maps living in the repository's `mappings.py` which is
not part of src/) the fallback is distinct from every defined
description. -/
theorem unmapped_code_roundtrip_fallback (m : CodeMap) (v : Val)
    (hnn : v ≠ .vnull)
    (hmiss : lookupCode m (strip_decimal (pyStr v)) = none)
    (hmiss2 : lookupCode m (pyStr v) = none) :
    (clean_and_map m v = "Unknown (" ++ pyStr v ++ ")" ∧
     ∃ pre post, clean_and_map m v = pre ++ pyStr v ++ post) ∧
    map_value m v = some ("Unknown (" ++ pyStr v ++ ")") ∧
    (m = GENDER_MAPPING → ∀ k dsc, (k, dsc) ∈ GENDER_MAPPING.entries →
       clean_and_map m v ≠ dsc ∧ map_value m v ≠ some dsc) := by
  have hpand : clean_and_map m v = "Unknown (" ++ pyStr v ++ ")" := by
    rw [clean_and_map, if_neg hnn, hmiss]
  have hpol : map_value m v = some ("Unknown (" ++ pyStr v ++ ")") := by
    rw [map_value_ne_null m v hnn, hmiss2]
  refine ⟨⟨hpand, "Unknown (", ")", hpand⟩, hpol, ?_⟩
  rintro rfl k dsc hk
  have hlen : ("Unknown (" ++ pyStr v ++ ")").length = 10 + (pyStr v).length := by
    rw [String.length_append, String.length_append]
    rw [show ("Unknown (").length = 9 from rfl, show (")").length = 1 from rfl]
    omega
  have hdsc : dsc = "male" ∨ dsc = "female" := by
    simp [GENDER_MAPPING] at hk
    rcases hk with ⟨-, h⟩ | ⟨-, h⟩
    · exact Or.inl h
    · exact Or.inr h
  have hne : "Unknown (" ++ pyStr v ++ ")" ≠ dsc := by
    intro h
    apply_fun String.length at h
    rw [hlen] at h
    rcases hdsc with rfl | rfl
    · rw [show ("male").length = 4 from rfl] at h
      omega
    · rw [show ("female").length = 6 from rfl] at h
      omega
  exact ⟨by rw [hpand]; exact hne, by rw [hpol]; simp [hne]⟩

/-- C4 (witness): the unmapped gender code 3. -/
theorem unmapped_code_roundtrip_fallback_witness :
    clean_and_map GENDER_MAPPING (.vint 3) = "Unknown (" ++ pyStr (.vint 3) ++ ")" ∧
    map_value GENDER_MAPPING (.vint 3) = some ("Unknown (" ++ pyStr (.vint 3) ++ ")") ∧
    clean_and_map GENDER_MAPPING (.vint 3) ≠ "male" :=
  have h := unmapped_code_roundtrip_fallback GENDER_MAPPING (.vint 3)
    (by decide) (by decide) (by decide)
  ⟨h.1.1, h.2.1, (h.2.2 rfl "1" "male" (by decide)).1⟩

/-- C10: after a column mapping on a present column, the target column is
string-typed: in the pandas pipeline every cell (nulls included) becomes a
string; in the polars pipeline every non-null cell becomes a string (the
dtype being fixed to Utf8 by `return_dtype=pl.Utf8`). -/
theorem mapped_column_string_typed (m : CodeMap) (name : String) (t : Table)
    (hin : name ∈ t.cols) :
    (∀ r ∈ (map_codes_pandas m name t).rows, ∀ p ∈ r, p.1 = name →
       ∃ s, p.2 = Val.vstr s) ∧
    (∀ r ∈ (map_codes_polars m name t).rows, ∀ p ∈ r, p.1 = name →
       p.2 = Val.vnull ∨ ∃ s, p.2 = Val.vstr s) := by
  constructor
  · intro r hr p hp hname
    rw [map_codes_pandas, if_pos hin] at hr
    simp only [List.mem_map] at hr
    obtain ⟨r0, -, rfl⟩ := hr
    simp only [rowApply, applyVals, List.mem_map] at hp
    obtain ⟨q, -, rfl⟩ := hp
    simp only at hname
    simp [hname]
  · intro r hr p hp hname
    rw [map_codes_polars, if_pos hin] at hr
    simp only [List.mem_map] at hr
    obtain ⟨r0, -, rfl⟩ := hr
    simp only [rowApply, applyVals, List.mem_map] at hp
    obtain ⟨q, -, rfl⟩ := hp
    simp only at hname
    simp only [hname, if_pos]
    rw [map_value_elem]
    cases hm : map_value m q.2 with
    | none => exact Or.inl rfl
    | some s => exact Or.inr ⟨s, rfl⟩

/-- C10 (witness): mapping the single-cell gender column `[2]`. -/
theorem mapped_column_string_typed_witness :
    ∃ s, (("Gender", Val.vstr "female") : String × Val).2 = Val.vstr s :=
  (mapped_column_string_typed GENDER_MAPPING "Gender"
      ⟨["Gender"], [[("Gender", Val.vint 2)]]⟩ (by decide)).1
    [("Gender", Val.vstr (clean_and_map GENDER_MAPPING (Val.vint 2)))] (by decide)
    ("Gender", Val.vstr "female") (by decide) rfl

@[simp]
theorem pyStr_castValUtf8 (v : Val) : pyStr (castValUtf8 v) = pyStr v := by
  cases v <;> rfl

theorem castValUtf8_ne_null (v : Val) (h : v ≠ .vnull) : castValUtf8 v ≠ .vnull := by
  cases v with
  | vnull => exact absurd rfl h
  | vint n => simp [castValUtf8]
  | vfloat neg w fr => simp [castValUtf8]
  | vstr s => simp [castValUtf8]

theorem concatStrVals_eq_join (vs : List Val) (h : ∀ v ∈ vs, v ≠ Val.vnull) :
    concatStrVals vs = .vstr (String.join (vs.map pyStr)) := by
  rw [concatStrVals, if_pos]
  · congr 1
    congr 1
    exact List.map_congr_left (fun v _ => pyStr_castValUtf8 v)
  · rw [List.all_eq_true]
    intro v hv
    simpa using h v hv

theorem string_join_pair (a b : String) : String.join [a, b] = a ++ b := by
  simp [String.join]

/-- C3: `create_household_id` appends a `household_id` column holding the
plain concatenation (no separator) of the string renderings of the
grouping-column values, in exactly the supplied column order; and
`add_person_id` appends `person_id` = HouseholdId ++ person sequence. -/
theorem household_person_id (gcols : List String) (t : Table) (r : Row)
    (hsub : ∀ c ∈ gcols, c ∈ t.cols) (hr : r ∈ t.rows)
    (hnn : ∀ c ∈ gcols, (alookup c r).getD Val.vnull ≠ Val.vnull)
    (hno : alookup "household_id" r = none)
    (t2 : Table) (r2 : Row) (hid sl : Val)
    (hslc : "Sl.No." ∈ t2.cols) (hr2 : r2 ∈ t2.rows)
    (hh : alookup "household_id" r2 = some hid) (hs : alookup "Sl.No." r2 = some sl)
    (hhn : hid ≠ Val.vnull) (hsn : sl ≠ Val.vnull) :
    ((create_household_id gcols t).cols = t.cols ++ ["household_id"] ∧
     ∃ rr ∈ (create_household_id gcols t).rows,
       alookup "household_id" rr =
         some (Val.vstr (String.join
           (gcols.map (fun c => pyStr ((alookup c r).getD Val.vnull)))))) ∧
    ∃ rr ∈ (add_person_id t2).rows,
      alookup "person_id" rr = some (Val.vstr (pyStr hid ++ pyStr sl)) := by
  have havail : gcols.filter (fun c => c ∈ t.cols) = gcols := by
    rw [List.filter_eq_self]
    intro c hc
    simpa using hsub c hc
  have hsome : ∀ c ∈ gcols, ∃ v, alookup c r = some v ∧ v ≠ Val.vnull := by
    intro c hc
    have h := hnn c hc
    cases hvc : alookup c r with
    | none => rw [hvc] at h; exact absurd rfl h
    | some v => rw [hvc] at h; exact ⟨v, rfl, by simpa using h⟩
  refine ⟨⟨rfl, ?_⟩, ?_⟩
  · refine ⟨_, List.mem_map_of_mem _ hr, ?_⟩
    simp only [create_household_id, havail]
    have hrc : alookup "household_id"
        (rowApply (fun n v => if n ∈ gcols then castValUtf8 v else v) r) = none := by
      rw [alookup_rowApply, hno]
      rfl
    rw [alookup_append_none _ _ _ hrc, alookup_cons_self]
    congr 1
    have hall : ∀ v ∈ gcols.map (fun c =>
        (alookup c (rowApply (fun n v => if n ∈ gcols then castValUtf8 v else v) r)).getD
          Val.vnull), v ≠ Val.vnull := by
      intro v hv
      simp only [List.mem_map] at hv
      obtain ⟨c, hc, rfl⟩ := hv
      obtain ⟨w, hw, hwn⟩ := hsome c hc
      rw [alookup_rowApply, hw]
      simp only [Option.map_some, Option.getD_some, if_pos hc]
      exact castValUtf8_ne_null w hwn
    rw [concatStrVals_eq_join _ hall]
    rw [List.map_map]
    refine congrArg Val.vstr (congrArg String.join (List.map_congr_left ?_))
    intro c hc
    obtain ⟨w, hw, -⟩ := hsome c hc
    simp [Function.comp_apply, alookup_rowApply, hw, if_pos hc, pyStr_castValUtf8]
  · rw [add_person_id, if_pos hslc]
    refine ⟨_, List.mem_map_of_mem _ hr2, ?_⟩
    rw [alookup_cons_self]
    congr 1
    rw [hh, hs]
    simp only [Option.getD_some]
    have hall2 : ∀ v ∈ [hid, sl], v ≠ Val.vnull := by
      intro v hv
      rcases List.mem_cons.mp hv with rfl | hv2
      · exact hhn
      · rcases List.mem_cons.mp hv2 with rfl | hv3
        · exact hsn
        · simp at hv3
    rw [concatStrVals_eq_join _ hall2, List.map_cons, List.map_cons, List.map_nil,
      string_join_pair]

/-- C3 (witness): the spec's example — raw values `["10", "2", "07",
"003"]` concatenated in order give HouseholdId `"10207003"`, and person
sequence `"02"` gives PersonId `"1020700302"`. -/
theorem household_person_id_witness :
    (∃ rr ∈ (create_household_id ["Sector", "State", "District", "fsu"]
        ⟨["Sector", "State", "District", "fsu"],
         [[("Sector", Val.vstr "10"), ("State", Val.vstr "2"),
           ("District", Val.vstr "07"), ("fsu", Val.vstr "003")]]⟩).rows,
       alookup "household_id" rr = some (Val.vstr "10207003")) ∧
    ∃ rr ∈ (add_person_id
        ⟨["household_id", "Sl.No."],
         [[("household_id", Val.vstr "10207003"), ("Sl.No.", Val.vstr "02")]]⟩).rows,
      alookup "person_id" rr = some (Val.vstr "1020700302") := by
  have h := household_person_id ["Sector", "State", "District", "fsu"]
    ⟨["Sector", "State", "District", "fsu"],
     [[("Sector", Val.vstr "10"), ("State", Val.vstr "2"),
       ("District", Val.vstr "07"), ("fsu", Val.vstr "003")]]⟩
    [("Sector", Val.vstr "10"), ("State", Val.vstr "2"),
     ("District", Val.vstr "07"), ("fsu", Val.vstr "003")]
    (by decide) (by decide) (by decide) (by decide)
    ⟨["household_id", "Sl.No."],
     [[("household_id", Val.vstr "10207003"), ("Sl.No.", Val.vstr "02")]]⟩
    [("household_id", Val.vstr "10207003"), ("Sl.No.", Val.vstr "02")]
    (Val.vstr "10207003") (Val.vstr "02")
    (by decide) (by decide) (by decide) (by decide) (by decide) (by decide)
  obtain ⟨⟨-, rr, hm, he⟩, rr2, hm2, he2⟩ := h
  exact ⟨⟨rr, hm, he.trans (by decide)⟩, ⟨rr2, hm2, he2.trans (by decide)⟩⟩

theorem alookup_filter_ne (r : Row) (n : String) :
    alookup n (r.filter (fun p => p.1 ≠ n)) = none := by
  induction r with
  | nil => rfl
  | cons p r ih =>
    rw [List.filter_cons]
    by_cases hp : p.1 = n
    · rw [if_neg (by simpa using hp)]
      exact ih
    · rw [if_pos (by simpa using hp), alookup, if_neg hp]
      exact ih

theorem alookup_filter_ne_other (r : Row) (n c : String) (h : c ≠ n) :
    alookup c (r.filter (fun p => p.1 ≠ n)) = alookup c r := by
  induction r with
  | nil => rfl
  | cons p r ih =>
    rw [List.filter_cons]
    by_cases hp : p.1 = n
    · rw [if_neg (by simpa using hp), ih, alookup,
        if_neg (hp ▸ fun hc => h hc.symm)]
    · rw [if_pos (by simpa using hp)]
      by_cases hc : p.1 = c
      · rw [alookup, if_pos hc, alookup, if_pos hc]
      · rw [alookup, if_neg hc, alookup, if_neg hc, ih]

/-- C6 (counterexample): an internal exception in the pandas
`map_district_codes` that is raised while writing the failure log
(src/parse.py line 163) happens after the frame has been mutated in place
(lines 135-146): the except branch returns the already-mutated frame, not
the input unchanged. -/
theorem pandas_district_exception_not_unchanged :
    map_district_codes_pandas [⟨10, 5, 2, "StateA", "DistA"⟩] true
      ⟨["FOD Sub-Region", "District", "NSS-Region"],
       [[("FOD Sub-Region", .vint 10), ("District", .vint 5), ("NSS-Region", .vint 21)]]⟩ ≠
    ⟨["FOD Sub-Region", "District", "NSS-Region"],
     [[("FOD Sub-Region", .vint 10), ("District", .vint 5), ("NSS-Region", .vint 21)]]⟩ := by
  decide

/-- C6 (amended): the single-column mappers of both pipelines are
column-local (all other columns keep their values) and return the input
unchanged when their fallible step fails before any assignment; the polars
district mapper likewise; but the pandas district mapper writes its two
output columns in place before its fallible log step, so it is the mutated
frame — not the input — that an exception there yields.  No mapping step
ever escapes its try/except, so none aborts the pipeline. -/
theorem column_mapping_locality (m : CodeMap) (name c : String) (t : Table)
    (dm : DistrictMap2) (hne : c ≠ name) (hnd : c ≠ "District") :
    ((map_codes_pandas m name t).cols = t.cols ∧
     (map_codes_pandas m name t).rows.map (fun r => alookup c r) =
       t.rows.map (fun r => alookup c r)) ∧
    ((map_codes_polars m name t).cols = t.cols ∧
     (map_codes_polars m name t).rows.map (fun r => alookup c r) =
       t.rows.map (fun r => alookup c r)) ∧
    (map_codes_pandas_try m name true t = t ∧
     map_codes_polars_try m name true t = t ∧
     map_district_codes_polars dm true t = t) ∧
    (map_district_codes_polars dm false t).rows.map (fun r => alookup c r) =
      t.rows.map (fun r => alookup c r) := by
  have hmapped : ∀ (f : CodeMap → Val → Val),
      (t.rows.map (rowApply (fun n v => if n = name then f m v else v))).map
        (fun r => alookup c r) = t.rows.map (fun r => alookup c r) := by
    intro f
    rw [List.map_map]
    refine List.map_congr_left ?_
    intro r _
    simp only [Function.comp_apply, alookup_rowApply]
    cases alookup c r with
    | none => rfl
    | some v => simp [if_neg hne]
  refine ⟨⟨?_, ?_⟩, ⟨?_, ?_⟩, ⟨rfl, rfl, ?_⟩, ?_⟩
  · rw [map_codes_pandas]
    split <;> rfl
  · rw [map_codes_pandas]
    split
    · exact hmapped (fun m v => .vstr (clean_and_map m v))
    · rfl
  · rw [map_codes_polars]
    split <;> rfl
  · rw [map_codes_polars]
    split
    · exact hmapped (fun m v => map_value_elem m v)
    · rfl
  · rw [map_district_codes_polars]
    split <;> rfl
  · rw [map_district_codes_polars]
    split
    · simp only [if_neg (by simp : ¬(False : Prop)), Bool.false_eq_true, if_false]
      rw [List.map_map]
      refine List.map_congr_left ?_
      intro r _
      simp only [Function.comp_apply]
      cases hlc : alookup c r with
      | none =>
        rw [alookup_append_none _ _ _ ((alookup_filter_ne_other r "District" c hnd).trans hlc)]
        rw [alookup, if_neg (fun h => hnd h.symm), alookup]
      | some v =>
        exact alookup_append_some _ _ _ _
          ((alookup_filter_ne_other r "District" c hnd).trans hlc)
    · rfl

/-- C6 (witness): concrete instantiation on a two-column table. -/
theorem column_mapping_locality_witness :
    (map_codes_pandas GENDER_MAPPING "Gender"
        ⟨["Gender", "Age"], [[("Gender", .vint 1), ("Age", .vint 30)]]⟩).rows.map
      (fun r => alookup "Age" r) = [some (.vint 30)] := by
  have h := column_mapping_locality GENDER_MAPPING "Gender" "Age"
    ⟨["Gender", "Age"], [[("Gender", .vint 1), ("Age", .vint 30)]]⟩ []
    (by decide) (by decide)
  exact h.1.2.trans (by decide)

theorem alookup_map_overwrite (r : Row) (n : String) (v : Val)
    (hm : n ∈ r.map Prod.fst) :
    alookup n (r.map (fun p => if p.1 = n then (n, v) else p)) = some v := by
  induction r with
  | nil => simp at hm
  | cons p r ih =>
    rw [List.map_cons]
    by_cases hp : p.1 = n
    · rw [if_pos hp, alookup_cons_self]
    · rw [if_neg hp, alookup, if_neg hp]
      apply ih
      rw [List.map_cons, List.mem_cons] at hm
      rcases hm with h | h
      · exact absurd h.symm hp
      · exact h

theorem alookup_setEntry_self (r : Row) (n : String) (v : Val) :
    alookup n (setEntry r n v) = some v := by
  rw [setEntry]
  split
  · exact alookup_map_overwrite r n v (by assumption)
  · rename_i hm
    rw [alookup_append_none _ _ _ (alookup_eq_none_of_not_mem _ _ hm),
      alookup_cons_self]

theorem alookup_map_overwrite_other (r : Row) (n : String) (v : Val) (c : String)
    (h : c ≠ n) :
    alookup c (r.map (fun p => if p.1 = n then (n, v) else p)) = alookup c r := by
  induction r with
  | nil => rfl
  | cons p r ih =>
    rw [List.map_cons]
    by_cases hp : p.1 = n
    · rw [if_pos hp, alookup, if_neg (fun hc => h hc.symm), alookup,
        if_neg (hp ▸ fun hc : p.1 = c => h (hc ▸ hp)), ih]
    · by_cases hc : p.1 = c
      · rw [if_neg hp, alookup, if_pos hc, alookup, if_pos hc]
      · rw [if_neg hp, alookup, if_neg hc, alookup, if_neg hc, ih]

theorem alookup_setEntry_other (r : Row) (n : String) (v : Val) (c : String)
    (h : c ≠ n) : alookup c (setEntry r n v) = alookup c r := by
  rw [setEntry]
  split
  · exact alookup_map_overwrite_other r n v c h
  · cases hlc : alookup c r with
    | none =>
      rw [alookup_append_none _ _ _ hlc, alookup, if_neg (fun hc => h hc.symm),
        alookup]
    | some w => exact alookup_append_some _ _ _ _ hlc

theorem zipWith_getD {α β γ : Type} (f : α → β → γ) (as : List α) (bs : List β)
    (i : Nat) (d : γ) (da : α) (db : β) (ha : i < as.length) (hb : i < bs.length) :
    (List.zipWith f as bs).getD i d = f (as.getD i da) (bs.getD i db) := by
  induction as generalizing bs i with
  | nil => simp at ha
  | cons a as ih =>
    cases bs with
    | nil => simp at hb
    | cons b bs =>
      cases i with
      | zero => rfl
      | succ i =>
        rw [List.zipWith_cons_cons, List.getD_cons_succ, List.getD_cons_succ,
          List.getD_cons_succ]
        exact ih bs i (by simpa using ha) (by simpa using hb)

theorem map_getD {α β : Type} (f : α → β) (l : List α) (i : Nat) (d : β) (d0 : α)
    (h : i < l.length) : (l.map f).getD i d = f (l.getD i d0) := by
  induction l generalizing i with
  | nil => simp at h
  | cons a l ih =>
    cases i with
    | zero => rfl
    | succ i =>
      rw [List.map_cons, List.getD_cons_succ, List.getD_cons_succ]
      exact ih i (by simpa using h)

/-- C5 (counterexample): in the pandas pipeline, an unresolved composite
district key yields the plain literal `"Unknown District"` — the raw
district code 7 is not embedded, so the replacement value is not
`"Unknown District (<raw code>)"` as claimed. -/
theorem pandas_unresolved_district_lacks_raw_code :
    (map_district_codes_pandas [⟨10, 5, 2, "StateA", "DistA"⟩] false
      ⟨["FOD Sub-Region", "District", "NSS-Region"],
       [[("FOD Sub-Region", .vint 10), ("District", .vint 7),
         ("NSS-Region", .vint 21)]]⟩).rows.map (fun r => alookup "district" r) =
      [some (.vstr "Unknown District")] ∧
    Val.vstr "Unknown District" ≠
      Val.vstr ("Unknown District (" ++ pyStr (Val.vint 7) ++ ")") := by
  decide

/-- C5 (amended): the polars `map_district_codes` behaves as claimed for
non-null codes — both codes are rendered with `str`, the pair is looked up
in the two-level district map, the district column is replaced with the
resolved name, and every unresolved pair falls back to exactly
`"Unknown District (<raw district code>)"`; the pandas `map_district_codes`
instead keys on (sub-region, district, NSS-derived state) normalized to
integers, writes new `state`/`district` columns, and uses the plain
literals `"Unknown State"` / `"Unknown District"` without the raw code for
unresolved keys. -/
theorem district_mapping_fallbacks
    (dm : DistrictMap2) (t : Table) (r : Row) (sv dv : Val)
    (hc : "State" ∈ t.cols ∧ "District" ∈ t.cols) (hr : r ∈ t.rows)
    (hs : alookup "State" r = some sv) (hd : alookup "District" r = some dv)
    (hsn : sv ≠ Val.vnull) (hdn : dv ≠ Val.vnull)
    (D : List DistrictRow) (lf : Bool) (t2 : Table) (keys : List String) (i : Nat)
    (hg : "FOD Sub-Region" ∈ t2.cols ∧ "District" ∈ t2.cols)
    (hk : rowKeysPandas t2 = some keys)
    (hlen : t2.rows.length = keys.length) (hi : i < keys.length)
    (hmiss : alookup (keys.getD i "") (buildMappingDict D) = none) :
    (∃ rr ∈ (map_district_codes_polars dm false t).rows,
       alookup "District" rr = some (map_district_fn dm sv dv)) ∧
    (∀ dmap, alookup (pyStr sv) dm = some dmap →
       (∀ nm, alookup (pyStr dv) dmap = some nm →
          map_district_fn dm sv dv = Val.vstr nm) ∧
       (alookup (pyStr dv) dmap = none →
          map_district_fn dm sv dv =
            Val.vstr ("Unknown District (" ++ pyStr dv ++ ")"))) ∧
    (alookup (pyStr sv) dm = none →
       map_district_fn dm sv dv = Val.vstr ("Unknown District (" ++ pyStr dv ++ ")")) ∧
    alookup "district" ((map_district_codes_pandas D lf t2).rows.getD i []) =
      some (Val.vstr "Unknown District") ∧
    alookup "state" ((map_district_codes_pandas D lf t2).rows.getD i []) =
      some (Val.vstr "Unknown State") := by
  have hnn : ¬(sv = Val.vnull ∨ dv = Val.vnull) := by
    rintro (h | h)
    · exact hsn h
    · exact hdn h
  have hpand : (map_district_codes_pandas D lf t2).rows.getD i [] =
      setEntry (setEntry (t2.rows.getD i []) "state"
          (match alookup (keys.getD i "") (buildMappingDict D) with
           | some p => Val.vstr p.1
           | none => Val.vstr "Unknown State")) "district"
        (match alookup (keys.getD i "") (buildMappingDict D) with
         | some p => Val.vstr p.2
         | none => Val.vstr "Unknown District") := by
    simp only [map_district_codes_pandas, if_pos hg, hk]
    rw [setColumn, setColumn]
    have hlen2 : (List.zipWith (fun (r : Row) v => setEntry r "state" v) t2.rows
        (keys.map (fun k => match alookup k (buildMappingDict D) with
          | some p => Val.vstr p.1
          | none => Val.vstr "Unknown State"))).length = keys.length := by
      rw [List.length_zipWith, hlen, List.length_map, Nat.min_self]
    rw [zipWith_getD _ _ _ i [] [] Val.vnull (by rw [hlen2]; exact hi)
      (by rw [List.length_map]; exact hi)]
    rw [zipWith_getD _ _ _ i [] [] Val.vnull (by rw [hlen]; exact hi)
      (by rw [List.length_map]; exact hi)]
    rw [map_getD _ _ _ _ "" hi, map_getD _ _ _ _ "" hi]
  refine ⟨?_, ?_, ?_, ?_, ?_⟩
  · rw [map_district_codes_polars, if_pos hc, if_neg (by simp)]
    refine ⟨_, List.mem_map_of_mem _ hr, ?_⟩
    rw [alookup_append_none _ _ _ (alookup_filter_ne r "District"), alookup_cons_self,
      hs, hd]
    rfl
  · intro dmap hdm
    constructor
    · intro nm hnm
      simp only [map_district_fn, if_neg hnn, hdm, hnm]
    · intro hnone
      simp only [map_district_fn, if_neg hnn, hdm, hnone]
  · intro hnone
    simp only [map_district_fn, if_neg hnn, hnone]
  · rw [hpand, alookup_setEntry_self, hmiss]
  · rw [hpand, alookup_setEntry_other _ _ _ _ (by decide),
      alookup_setEntry_self, hmiss]

/-- C5 (witness): a polars row whose (state, district) pair misses the map
falls back to `"Unknown District (7)"`; a pandas row whose composite key
misses gets the plain `"Unknown District"`. -/
theorem district_mapping_fallbacks_witness :
    (∃ rr ∈ (map_district_codes_polars [("2", [("5", "Known")])] false
        ⟨["State", "District"],
         [[("State", .vint 2), ("District", .vint 7)]]⟩).rows,
       alookup "District" rr = some (.vstr "Unknown District (7)")) ∧
    alookup "district" ((map_district_codes_pandas [⟨10, 5, 2, "StateA", "DistA"⟩]
        false
        ⟨["FOD Sub-Region", "District", "NSS-Region"],
         [[("FOD Sub-Region", .vint 10), ("District", .vint 7),
           ("NSS-Region", .vint 21)]]⟩).rows.getD 0 []) =
      some (.vstr "Unknown District") := by
  have h := district_mapping_fallbacks [("2", [("5", "Known")])]
    ⟨["State", "District"], [[("State", .vint 2), ("District", .vint 7)]]⟩
    [("State", .vint 2), ("District", .vint 7)] (.vint 2) (.vint 7)
    (by decide) (by decide) (by decide) (by decide) (by decide) (by decide)
    [⟨10, 5, 2, "StateA", "DistA"⟩] false
    ⟨["FOD Sub-Region", "District", "NSS-Region"],
     [[("FOD Sub-Region", .vint 10), ("District", .vint 7),
       ("NSS-Region", .vint 21)]]⟩
    ["10_7_2"] 0 (by decide) (by decide) (by decide) (by decide) (by decide)
  obtain ⟨⟨rr, hm, he⟩, -, -, hd1, -⟩ := h
  exact ⟨⟨rr, hm, he.trans (by decide)⟩, hd1⟩

/-- C7 (code defect): the claim — and the code's own harmonization branch
with its comment "If column exists in one dataframe but not the other, add
it with nulls" (src/2019/parse.py lines 139-143) — says a part lacking a
column is null-filled and concatenated after harmonization.  But a
differing column set makes the widths differ, so the first concatenation
raises `ShapeError`, which the `except pl.exceptions.SchemaError` at line
116 does not catch: the run aborts and no combined table is produced.  The
harmonization path is reachable only for a dtype mismatch of
positionally-aligned, same-name schemas, where the Utf8 coercion makes the
retry succeed (second conjunct). -/
theorem concat_missing_column_aborts :
    combine_parts
        ⟨[("X", .utf8), ("Y", .int64)], [[("X", .vstr "x1"), ("Y", .vint 1)]]⟩
        ⟨[("Y", .int64)], [[("Y", .vint 2)], [("Y", .vint 3)]]⟩ =
      .error .shapeError ∧
    combine_parts
        ⟨[("X", .utf8)], [[("X", .vstr "x1")]]⟩
        ⟨[("X", .int64)], [[("X", .vint 2)]]⟩ =
      .ok ⟨[("X", .utf8)], [[("X", .vstr "x1")], [("X", .vstr "2")]]⟩ := by
  decide

/-- C8: the column projector keeps exactly the columns of the input table
(desired-but-absent columns are skipped, no actual column is dropped), and
on desired order `[a, b]` with actual columns `[b, c, a]` produces
`[a, b, c]`. -/
theorem column_projector_complete (desired actual : List String) :
    (∀ c, c ∈ final_column_order desired actual ↔ c ∈ actual) ∧
    final_column_order ["a", "b"] ["b", "c", "a"] = ["a", "b", "c"] := by
  constructor
  · intro c
    rw [final_column_order]
    simp only [List.mem_append, List.mem_filter, decide_eq_true_eq]
    constructor
    · rintro (⟨-, h⟩ | ⟨h, -⟩) <;> exact h
    · intro h
      by_cases hd : c ∈ desired
      · exact Or.inl ⟨hd, h⟩
      · exact Or.inr ⟨h, by simpa using hd⟩
  · decide

end TUS
